import Mathlib

/-!
Shallow embedding of the transactional ledger and inventory engine of
`src/server.ts` (a better-sqlite3 backed Express server).

Modelling conventions:
* each SQLite table is a `Table ρ`: the list of its rows in insertion order
  plus the AUTOINCREMENT sequence value (`sqlite_sequence`);
* `REAL` money columns become `Rat`, `INTEGER` quantity columns `Int`,
  ids `Nat`, `TEXT` columns `String`, `DATETIME DEFAULT CURRENT_TIMESTAMP`
  a logical clock `now : Nat` carried by the store state;
* a handler wrapped in `db.transaction` is a function into
  `Except String …`: better-sqlite3 rolls back every statement of the unit
  when one throws, so an `.error` result leaves the caller's store exactly
  as it was.  The two payment handlers have **no** `db.transaction` in the
  source; they are modelled at statement granularity with an injected
  fault index (`runNoTx`), under which the statements before the failing
  one stay committed because each autocommits on its own;
* SQLite `CHECK(... IN (...))` constraints are the only constraint
  failures a well-typed request can hit (better-sqlite3 does not enable
  `PRAGMA foreign_keys`), and they are modelled as explicit enum checks at
  the point of the corresponding `INSERT`.
-/

/-- One SQLite table: rows in insertion order plus the AUTOINCREMENT
sequence counter. -/
structure Table (α : Type) where
  rows : List α
  seq : Nat
deriving DecidableEq

/-- An `INSERT` that lets AUTOINCREMENT assign the id: the new row id is
`seq + 1` (`lastInsertRowid` in the source), and the row is appended. -/
def Table.insertAuto {α : Type} (t : Table α) (mk : Nat → α) : Table α × Nat :=
  let i := t.seq + 1
  ({ rows := t.rows ++ [mk i], seq := i }, i)

/-- Row of `users` (`id, username, password, role CHECK(role IN ('admin','accountant','engineer'))`). -/
structure UserRow where
  id : Nat
  username : String
  password : String
  role : String
deriving DecidableEq

/-- Row of `settings` (`key TEXT PRIMARY KEY, value TEXT`). -/
structure SettingRow where
  key : String
  value : String
deriving DecidableEq

/-- Row of `products`. -/
structure ProductRow where
  id : Nat
  name : String
  category : String
  brand : String
  model : String
  sku : String
  price : Rat
  cost : Rat
  stock_quantity : Int
  opening_stock : Int
  min_stock_level : Int
  unit : String
  notes : String
  warehouse_id : Nat
  location : String
deriving DecidableEq

/-- Row of `warehouses`. -/
structure WarehouseRow where
  id : Nat
  name : String
  location : String
  notes : String
deriving DecidableEq

/-- Row of `customers`: `balance` is the cached derived balance column. -/
structure CustomerRow where
  id : Nat
  name : String
  phone : String
  email : String
  address : String
  opening_balance : Rat
  balance : Rat
  notes : String
deriving DecidableEq

/-- Row of `suppliers` (`balance REAL DEFAULT 0`). -/
structure SupplierRow where
  id : Nat
  name : String
  contact_person : String
  phone : String
  email : String
  balance : Rat
  notes : String
deriving DecidableEq

/-- Row of `purchases` (`payment_status CHECK(IN ('paid','partial','unpaid'))`). -/
structure PurchaseRow where
  id : Nat
  supplier_id : Nat
  user_id : Nat
  total_amount : Rat
  payment_status : String
  created_at : Nat
deriving DecidableEq

/-- Row of `purchase_items`. -/
structure PurchaseItemRow where
  id : Nat
  purchase_id : Nat
  product_id : Nat
  quantity : Int
  unit_cost : Rat
  subtotal : Rat
deriving DecidableEq

/-- Row of `supplier_transactions` (`type CHECK(IN ('purchase','payment'))`). -/
structure SupplierTransactionRow where
  id : Nat
  supplier_id : Nat
  type : String
  amount : Rat
  description : String
  created_at : Nat
deriving DecidableEq

/-- Row of `sales`; `customer_id` is nullable in the schema and the handler
tests its JS truthiness, so it is an `Option`. -/
structure SaleRow where
  id : Nat
  customer_id : Option Nat
  user_id : Nat
  total_amount : Rat
  discount : Rat
  payment_status : String
  payment_method : String
  created_at : Nat
deriving DecidableEq

/-- Row of `sale_items`. -/
structure SaleItemRow where
  id : Nat
  sale_id : Nat
  product_id : Nat
  quantity : Int
  unit_price : Rat
  subtotal : Rat
deriving DecidableEq

/-- Row of `transactions` (customer ledger; `type CHECK(IN ('sale','payment'))`). -/
structure TransactionRow where
  id : Nat
  customer_id : Nat
  type : String
  amount : Rat
  description : String
  created_at : Nat
deriving DecidableEq

/-- Row of `maintenance`. -/
structure MaintenanceRow where
  id : Nat
  customer_name : String
  customer_phone : String
  device_model : String
  imei : String
  device_condition : String
  fault_description : String
  symptoms : String
  maintenance_type : String
  cost : Rat
  status : String
  notes : String
  next_maintenance_date : Option Nat
  received_at : Nat
  completed_at : Option Nat
  user_id : Nat
deriving DecidableEq

/-- Row of `general_ledger` (`type CHECK(IN ('revenue','expense'))`). -/
structure GeneralLedgerRow where
  id : Nat
  type : String
  category : String
  amount : Rat
  description : String
  created_at : Nat
deriving DecidableEq

/-- Row of `stock_adjustments` (`type CHECK(IN ('damaged','correction','lost'))`). -/
structure StockAdjustmentRow where
  id : Nat
  product_id : Nat
  type : String
  quantity : Int
  reason : String
  created_at : Nat
deriving DecidableEq

/-- The whole store: the fifteen tables created by the schema block of
`server.ts`, plus the logical clock `now` feeding
`DATETIME DEFAULT CURRENT_TIMESTAMP` columns. -/
structure DBState where
  users : Table UserRow
  settings : Table SettingRow
  products : Table ProductRow
  warehouses : Table WarehouseRow
  suppliers : Table SupplierRow
  supplier_transactions : Table SupplierTransactionRow
  customers : Table CustomerRow
  sales : Table SaleRow
  sale_items : Table SaleItemRow
  transactions : Table TransactionRow
  maintenance : Table MaintenanceRow
  purchases : Table PurchaseRow
  purchase_items : Table PurchaseItemRow
  general_ledger : Table GeneralLedgerRow
  stock_adjustments : Table StockAdjustmentRow
  now : Nat
deriving DecidableEq

/-- `SELECT SUM(CASE WHEN type = ty THEN amount ELSE 0 END) FROM transactions
WHERE customer_id = cid` — the `|| 0` in the source coalesces SQL's
NULL-on-empty-set to 0, which the `Rat` sum gives directly. -/
def transactionsSum (ty : String) (cid : Nat) : List TransactionRow → Rat
  | [] => 0
  | r :: rest =>
      (if r.customer_id = cid ∧ r.type = ty then r.amount else 0) + transactionsSum ty cid rest

/-- The balance `updateCustomerBalance` derives from the movement log:
`(total_sales || 0) - (total_payments || 0)`. -/
def customerLogBalance (cid : Nat) (rows : List TransactionRow) : Rat :=
  transactionsSum "sale" cid rows - transactionsSum "payment" cid rows

/-- `updateCustomerBalance` from `server.ts`: recompute the balance from the
full `transactions` history and `UPDATE customers SET balance = ? WHERE id = ?`. -/
def updateCustomerBalance (cid : Nat) (s : DBState) : DBState :=
  { s with customers :=
      { s.customers with rows := s.customers.rows.map (fun c =>
          if c.id = cid then { c with balance := customerLogBalance cid s.transactions.rows } else c) } }

/-- Supplier-side analogue of `transactionsSum` over `supplier_transactions`. -/
def supplierTransactionsSum (ty : String) (sid : Nat) : List SupplierTransactionRow → Rat
  | [] => 0
  | r :: rest =>
      (if r.supplier_id = sid ∧ r.type = ty then r.amount else 0) + supplierTransactionsSum ty sid rest

/-- The balance `updateSupplierBalance` derives:
`(total_purchases || 0) - (total_payments || 0)`. -/
def supplierLogBalance (sid : Nat) (rows : List SupplierTransactionRow) : Rat :=
  supplierTransactionsSum "purchase" sid rows - supplierTransactionsSum "payment" sid rows

/-- `updateSupplierBalance` from `server.ts`. -/
def updateSupplierBalance (sid : Nat) (s : DBState) : DBState :=
  { s with suppliers :=
      { s.suppliers with rows := s.suppliers.rows.map (fun c =>
          if c.id = sid then { c with balance := supplierLogBalance sid s.supplier_transactions.rows } else c) } }

/-- The store right after startup: schema creation, the three
`INSERT OR IGNORE` default settings, and the seeded `admin` user. -/
def initState : DBState :=
  { users := { rows := [{ id := 1, username := "admin", password := "admin123", role := "admin" }], seq := 1 },
    settings := { rows := [{ key := "currency", value := "USD" },
                           { key := "rate_yer", value := "530" },
                           { key := "rate_sar", value := "3.75" }], seq := 0 },
    products := { rows := [], seq := 0 },
    warehouses := { rows := [], seq := 0 },
    suppliers := { rows := [], seq := 0 },
    supplier_transactions := { rows := [], seq := 0 },
    customers := { rows := [], seq := 0 },
    sales := { rows := [], seq := 0 },
    sale_items := { rows := [], seq := 0 },
    transactions := { rows := [], seq := 0 },
    maintenance := { rows := [], seq := 0 },
    purchases := { rows := [], seq := 0 },
    purchase_items := { rows := [], seq := 0 },
    general_ledger := { rows := [], seq := 0 },
    stock_adjustments := { rows := [], seq := 0 },
    now := 0 }

/-- The `payment_status` CHECK shared by `sales` and `purchases`. -/
def paymentStatusOk (st : String) : Bool :=
  st = "paid" || st = "partial" || st = "unpaid"

/-- The `stock_adjustments.type` CHECK. -/
def stockAdjustmentTypeOk (ty : String) : Bool :=
  ty = "damaged" || ty = "correction" || ty = "lost"

/-- The `general_ledger.type` CHECK. -/
def ledgerTypeOk (ty : String) : Bool :=
  ty = "revenue" || ty = "expense"

/-- Request body of `POST /api/customers`. -/
structure CustomerInput where
  name : String
  phone : String
  email : String
  address : String
  opening_balance : Rat
  notes : String
deriving DecidableEq

/-- `POST /api/customers`: a single INSERT whose `balance` column is
initialized to the request's `opening_balance` (the same value is bound to
both the `opening_balance` and `balance` placeholders); no `transactions`
row is written. -/
def createCustomer (inp : CustomerInput) (s : DBState) : DBState × Nat :=
  let r := s.customers.insertAuto (fun i =>
    { id := i, name := inp.name, phone := inp.phone, email := inp.email,
      address := inp.address, opening_balance := inp.opening_balance,
      balance := inp.opening_balance, notes := inp.notes })
  ({ s with customers := r.1 }, r.2)

/-- Request body of `POST /api/suppliers`. -/
structure SupplierInput where
  name : String
  contact_person : String
  phone : String
  email : String
  notes : String
deriving DecidableEq

/-- `POST /api/suppliers`: single INSERT; `balance` takes its schema
default 0. -/
def createSupplier (inp : SupplierInput) (s : DBState) : DBState × Nat :=
  let r := s.suppliers.insertAuto (fun i =>
    { id := i, name := inp.name, contact_person := inp.contact_person,
      phone := inp.phone, email := inp.email, balance := 0, notes := inp.notes })
  ({ s with suppliers := r.1 }, r.2)

/-- One element of the `items` array of `POST /api/sales`. -/
structure SaleItemInput where
  product_id : Nat
  quantity : Int
  unit_price : Rat
  subtotal : Rat
deriving DecidableEq

/-- Request body of `POST /api/sales`.  `customer_id` is `Option`: the
handler guards the ledger block with JS truthiness `if (customer_id)`. -/
structure SaleInput where
  customer_id : Option Nat
  user_id : Nat
  total_amount : Rat
  discount : Rat
  payment_status : String
  payment_method : String
  items : List SaleItemInput
deriving DecidableEq

/-- One iteration of the items loop of `POST /api/sales`: INSERT the
`sale_items` row (the `subtotal` bound is `item.subtotal` straight from the
request) and `UPDATE products SET stock_quantity = stock_quantity - ?
WHERE id = ?` — no floor check. -/
def applySaleItem (saleId : Nat) (it : SaleItemInput) (s : DBState) : DBState :=
  let s1 := { s with sale_items := (s.sale_items.insertAuto (fun i =>
    { id := i, sale_id := saleId, product_id := it.product_id,
      quantity := it.quantity, unit_price := it.unit_price, subtotal := it.subtotal })).1 }
  { s1 with products := { s1.products with rows := s1.products.rows.map (fun p =>
      if p.id = it.product_id then { p with stock_quantity := p.stock_quantity - it.quantity } else p) } }

/-- The `for (const item of items)` loop of `POST /api/sales`. -/
def applySaleItems (saleId : Nat) : List SaleItemInput → DBState → DBState
  | [], s => s
  | it :: rest, s => applySaleItems saleId rest (applySaleItem saleId it s)

/-- The `if (customer_id)` block of `POST /api/sales`: INSERT a `sale`
transaction for `total_amount`; if `payment_status === 'paid'` also INSERT
a `payment` transaction for the same amount; then `updateCustomerBalance`. -/
def applySaleCustomer (saleId cid : Nat) (total : Rat) (status : String) (s : DBState) : DBState :=
  let s1 := { s with transactions := (s.transactions.insertAuto (fun i =>
    { id := i, customer_id := cid, type := "sale", amount := total,
      description := "Sale #" ++ toString saleId, created_at := s.now })).1 }
  let s2 := if status = "paid" then
      { s1 with transactions := (s1.transactions.insertAuto (fun i =>
        { id := i, customer_id := cid, type := "payment", amount := total,
          description := "Payment for Sale #" ++ toString saleId, created_at := s1.now })).1 }
    else s1
  updateCustomerBalance cid s2

/-- `POST /api/sales`, the `db.transaction(() => { ... })` unit: INSERT the
sale header (the `payment_status` CHECK is the only constraint a well-typed
request can violate, and it fires at this first INSERT, so the rolled-back
unit is equivalent to an upfront test), then the customer-ledger block,
then the items loop; returns the new sale id (`lastInsertRowid`).  An
`.error` result reaches the handler's catch: HTTP 400 and — by rollback —
the caller's store is unchanged. -/
def recordSale (inp : SaleInput) (s : DBState) : Except String (DBState × Nat) :=
  if paymentStatusOk inp.payment_status then
    let r := s.sales.insertAuto (fun i =>
      { id := i, customer_id := inp.customer_id, user_id := inp.user_id,
        total_amount := inp.total_amount, discount := inp.discount,
        payment_status := inp.payment_status, payment_method := inp.payment_method,
        created_at := s.now })
    let s1 := { s with sales := r.1 }
    let s2 := match inp.customer_id with
      | some cid => applySaleCustomer r.2 cid inp.total_amount inp.payment_status s1
      | none => s1
    .ok (applySaleItems r.2 inp.items s2, r.2)
  else
    .error "CHECK constraint failed: payment_status"

/-- One element of the `items` array of `POST /api/purchases`. -/
structure PurchaseItemInput where
  product_id : Nat
  quantity : Int
  unit_cost : Rat
  subtotal : Rat
deriving DecidableEq

/-- Request body of `POST /api/purchases`. -/
structure PurchaseInput where
  supplier_id : Nat
  user_id : Nat
  total_amount : Rat
  payment_status : String
  items : List PurchaseItemInput
deriving DecidableEq

/-- One iteration of the items loop of `POST /api/purchases`: INSERT the
`purchase_items` row and `UPDATE products SET stock_quantity =
stock_quantity + ?, cost = ? WHERE id = ?` (cost overwritten with the
item's `unit_cost`). -/
def applyPurchaseItem (purchaseId : Nat) (it : PurchaseItemInput) (s : DBState) : DBState :=
  let s1 := { s with purchase_items := (s.purchase_items.insertAuto (fun i =>
    { id := i, purchase_id := purchaseId, product_id := it.product_id,
      quantity := it.quantity, unit_cost := it.unit_cost, subtotal := it.subtotal })).1 }
  { s1 with products := { s1.products with rows := s1.products.rows.map (fun p =>
      if p.id = it.product_id then
        { p with stock_quantity := p.stock_quantity + it.quantity, cost := it.unit_cost }
      else p) } }

/-- The `for (const item of items)` loop of `POST /api/purchases`. -/
def applyPurchaseItems (purchaseId : Nat) : List PurchaseItemInput → DBState → DBState
  | [], s => s
  | it :: rest, s => applyPurchaseItems purchaseId rest (applyPurchaseItem purchaseId it s)

/-- The supplier-ledger block of `POST /api/purchases`: INSERT a `purchase`
supplier transaction for `total_amount`, a `payment` one too when
`payment_status === 'paid'`, then `updateSupplierBalance`. -/
def applyPurchaseSupplier (purchaseId sid : Nat) (total : Rat) (status : String) (s : DBState) : DBState :=
  let s1 := { s with supplier_transactions := (s.supplier_transactions.insertAuto (fun i =>
    { id := i, supplier_id := sid, type := "purchase", amount := total,
      description := "Purchase #" ++ toString purchaseId, created_at := s.now })).1 }
  let s2 := if status = "paid" then
      { s1 with supplier_transactions := (s1.supplier_transactions.insertAuto (fun i =>
        { id := i, supplier_id := sid, type := "payment", amount := total,
          description := "Payment for Purchase #" ++ toString purchaseId, created_at := s1.now })).1 }
    else s1
  updateSupplierBalance sid s2

/-- `POST /api/purchases`, the `db.transaction` unit: INSERT the purchase
header (where the `payment_status` CHECK fires), the supplier-ledger
block, then the items loop; returns the new purchase id. -/
def recordPurchase (inp : PurchaseInput) (s : DBState) : Except String (DBState × Nat) :=
  if paymentStatusOk inp.payment_status then
    let r := s.purchases.insertAuto (fun i =>
      { id := i, supplier_id := inp.supplier_id, user_id := inp.user_id,
        total_amount := inp.total_amount, payment_status := inp.payment_status,
        created_at := s.now })
    let s1 := { s with purchases := r.1 }
    let s2 := applyPurchaseSupplier r.2 inp.supplier_id inp.total_amount inp.payment_status s1
    .ok (applyPurchaseItems r.2 inp.items s2, r.2)
  else
    .error "CHECK constraint failed: payment_status"

/-- Run a statement list that is NOT wrapped in `db.transaction`: every
statement autocommits on its own.  `fault = some k` models the `k`-th
statement failing (I/O error, store unreachable, …): the statements before
it stay committed and the caller gets a failure, with the store left in
the intermediate state.  `fault = none` is the fault-free run. -/
def runNoTx (writes : List (DBState → DBState)) (fault : Option Nat) (s : DBState) : DBState × Bool :=
  match fault with
  | none => (writes.foldl (fun st w => w st) s, true)
  | some k => ((writes.take k).foldl (fun st w => w st) s, false)

/-- The first statement of `POST /api/payments`: INSERT a `payment` row
into `transactions`. -/
def insertCustomerPayment (cid : Nat) (amount : Rat) (descr : String) (s : DBState) : DBState :=
  { s with transactions := (s.transactions.insertAuto (fun i =>
    { id := i, customer_id := cid, type := "payment", amount := amount,
      description := descr, created_at := s.now })).1 }

/-- `POST /api/payments`: the INSERT and then `updateCustomerBalance`'s
UPDATE run as two independent autocommitted statements — this handler has
**no** `db.transaction` wrapper, unlike `/api/sales`, `/api/purchases`,
`/api/stock-adjustments` and `/api/backup/import`. -/
def recordCustomerPayment (cid : Nat) (amount : Rat) (descr : String)
    (fault : Option Nat) (s : DBState) : DBState × Bool :=
  runNoTx [insertCustomerPayment cid amount descr, updateCustomerBalance cid] fault s

/-- The first statement of `POST /api/supplier-payments`: INSERT a
`payment` supplier transaction; `description || 'Payment to supplier'`
defaults a missing or empty description. -/
def insertSupplierPayment (sid : Nat) (amount : Rat) (descr : Option String) (s : DBState) : DBState :=
  { s with supplier_transactions := (s.supplier_transactions.insertAuto (fun i =>
    { id := i, supplier_id := sid, type := "payment", amount := amount,
      description := match descr with
        | some d => if d = "" then "Payment to supplier" else d
        | none => "Payment to supplier",
      created_at := s.now })).1 }

/-- `POST /api/supplier-payments`: like `POST /api/payments`, two
autocommitted statements with no `db.transaction` wrapper. -/
def recordSupplierPayment (sid : Nat) (amount : Rat) (descr : Option String)
    (fault : Option Nat) (s : DBState) : DBState × Bool :=
  runNoTx [insertSupplierPayment sid amount descr, updateSupplierBalance sid] fault s

/-- Request body of `POST /api/stock-adjustments`. -/
structure StockAdjustmentInput where
  product_id : Nat
  type : String
  quantity : Int
  reason : String
deriving DecidableEq

/-- `POST /api/stock-adjustments`, the `db.transaction` unit: INSERT the
adjustment row (the `type` CHECK fires here; nothing validates
`quantity`), then `UPDATE products SET stock_quantity = stock_quantity - ?
WHERE id = ?` — the quantity is subtracted whatever its sign. -/
def recordStockAdjustment (inp : StockAdjustmentInput) (s : DBState) : Except String DBState :=
  if stockAdjustmentTypeOk inp.type then
    let s1 := { s with stock_adjustments := (s.stock_adjustments.insertAuto (fun i =>
      { id := i, product_id := inp.product_id, type := inp.type,
        quantity := inp.quantity, reason := inp.reason, created_at := s.now })).1 }
    .ok { s1 with products := { s1.products with rows := s1.products.rows.map (fun p =>
        if p.id = inp.product_id then { p with stock_quantity := p.stock_quantity - inp.quantity } else p) } }
  else
    .error "CHECK constraint failed: stock_adjustments.type"

/-- Request body of `POST /api/ledger`. -/
structure LedgerInput where
  type : String
  category : String
  amount : Rat
  description : String
deriving DecidableEq

/-- `POST /api/ledger`: single INSERT into `general_ledger` (the `type`
CHECK is the only failure a well-typed request can hit); no derived-field
side effects. -/
def recordLedgerEntry (inp : LedgerInput) (s : DBState) : Except String (DBState × Nat) :=
  if ledgerTypeOk inp.type then
    let r := s.general_ledger.insertAuto (fun i =>
      { id := i, type := inp.type, category := inp.category,
        amount := inp.amount, description := inp.description, created_at := s.now })
    .ok ({ s with general_ledger := r.1 }, r.2)
  else
    .error "CHECK constraint failed: general_ledger.type"

/-- The portable backup object: one optional row array per table of the
`TABLES` list in `server.ts`.  A key can be absent from the JSON object
(`none`), which `if (backup[table])` skips; an empty array is truthy in
JS, so `some []` is processed (delete, insert nothing). -/
structure Snapshot where
  users : Option (List UserRow)
  settings : Option (List SettingRow)
  products : Option (List ProductRow)
  warehouses : Option (List WarehouseRow)
  suppliers : Option (List SupplierRow)
  supplier_transactions : Option (List SupplierTransactionRow)
  customers : Option (List CustomerRow)
  sales : Option (List SaleRow)
  sale_items : Option (List SaleItemRow)
  transactions : Option (List TransactionRow)
  maintenance : Option (List MaintenanceRow)
  purchases : Option (List PurchaseRow)
  purchase_items : Option (List PurchaseItemRow)
  general_ledger : Option (List GeneralLedgerRow)
  stock_adjustments : Option (List StockAdjustmentRow)
deriving DecidableEq

/-- `GET /api/backup/export`: `SELECT * FROM t` for every table of
`TABLES`, every key present. -/
def exportBackup (s : DBState) : Snapshot :=
  { users := some s.users.rows,
    settings := some s.settings.rows,
    products := some s.products.rows,
    warehouses := some s.warehouses.rows,
    suppliers := some s.suppliers.rows,
    supplier_transactions := some s.supplier_transactions.rows,
    customers := some s.customers.rows,
    sales := some s.sales.rows,
    sale_items := some s.sale_items.rows,
    transactions := some s.transactions.rows,
    maintenance := some s.maintenance.rows,
    purchases := some s.purchases.rows,
    purchase_items := some s.purchase_items.rows,
    general_ledger := some s.general_ledger.rows,
    stock_adjustments := some s.stock_adjustments.rows }

/-- The per-table step of `POST /api/backup/import`:
`if (backup[table]) { DELETE FROM table; for each row INSERT (explicit
columns from the first row, ids included) }`.  `DELETE FROM` leaves
`sqlite_sequence` untouched and each explicit-id INSERT raises it to at
least that id; the net effect on the rows is plain replacement in snapshot
order.  A table whose key is absent from the snapshot object is skipped
entirely. -/
def replaceTable {α : Type} (getId : α → Nat) (ob : Option (List α)) (t : Table α) : Table α :=
  match ob with
  | none => t
  | some l => { rows := l, seq := l.foldl (fun m r => max m (getId r)) t.seq }

/-- The row-replacement effect of the whole `TABLES.forEach` loop of
`POST /api/backup/import` (table components are disjoint, so the fixed
iteration order `users, settings, …, stock_adjustments` is invisible in
the final state). -/
def importBackupApply (b : Snapshot) (s : DBState) : DBState :=
  { s with
    users := replaceTable (fun r => r.id) b.users s.users,
    settings := replaceTable (fun _ => 0) b.settings s.settings,
    products := replaceTable (fun r => r.id) b.products s.products,
    warehouses := replaceTable (fun r => r.id) b.warehouses s.warehouses,
    suppliers := replaceTable (fun r => r.id) b.suppliers s.suppliers,
    supplier_transactions := replaceTable (fun r => r.id) b.supplier_transactions s.supplier_transactions,
    customers := replaceTable (fun r => r.id) b.customers s.customers,
    sales := replaceTable (fun r => r.id) b.sales s.sales,
    sale_items := replaceTable (fun r => r.id) b.sale_items s.sale_items,
    transactions := replaceTable (fun r => r.id) b.transactions s.transactions,
    maintenance := replaceTable (fun r => r.id) b.maintenance s.maintenance,
    purchases := replaceTable (fun r => r.id) b.purchases s.purchases,
    purchase_items := replaceTable (fun r => r.id) b.purchase_items s.purchase_items,
    general_ledger := replaceTable (fun r => r.id) b.general_ledger s.general_ledger,
    stock_adjustments := replaceTable (fun r => r.id) b.stock_adjustments s.stock_adjustments }

/-- CHECK predicate of `users.role`. -/
def userRowOk (r : UserRow) : Bool :=
  r.role = "admin" || r.role = "accountant" || r.role = "engineer"

/-- CHECK predicate of `purchases.payment_status`. -/
def purchaseRowOk (r : PurchaseRow) : Bool := paymentStatusOk r.payment_status

/-- CHECK predicate of `supplier_transactions.type`. -/
def supplierTxRowOk (r : SupplierTransactionRow) : Bool :=
  r.type = "purchase" || r.type = "payment"

/-- CHECK predicate of `sales.payment_status`. -/
def saleRowOk (r : SaleRow) : Bool := paymentStatusOk r.payment_status

/-- CHECK predicate of `transactions.type`. -/
def transactionRowOk (r : TransactionRow) : Bool :=
  r.type = "sale" || r.type = "payment"

/-- CHECK predicate of `general_ledger.type`. -/
def ledgerRowOk (r : GeneralLedgerRow) : Bool := ledgerTypeOk r.type

/-- CHECK predicate of `stock_adjustments.type`. -/
def stockAdjRowOk (r : StockAdjustmentRow) : Bool := stockAdjustmentTypeOk r.type

/-- All rows of an optional snapshot table pass a CHECK (an absent table
inserts nothing, hence passes). -/
def optRowsOk {α : Type} (f : α → Bool) : Option (List α) → Bool
  | none => true
  | some l => l.all f

/-- Every row the snapshot would INSERT satisfies its table's CHECK
constraint (one of the two constraint kinds an INSERT of a well-typed row
can violate; the other is UNIQUE/PRIMARY KEY, see `Snapshot.uniqueOk`). -/
def Snapshot.valid (b : Snapshot) : Bool :=
  optRowsOk userRowOk b.users && optRowsOk purchaseRowOk b.purchases &&
  optRowsOk supplierTxRowOk b.supplier_transactions && optRowsOk saleRowOk b.sales &&
  optRowsOk transactionRowOk b.transactions && optRowsOk ledgerRowOk b.general_ledger &&
  optRowsOk stockAdjRowOk b.stock_adjustments

/-- No two rows of the list share the value of the given column — the
content of a SQLite UNIQUE index or PRIMARY KEY over that column. -/
def keysUnique {α β : Type} [DecidableEq β] (f : α → β) : List α → Bool
  | [] => true
  | x :: rest => rest.all (fun y => decide (f y ≠ f x)) && keysUnique f rest

/-- An optional snapshot table satisfies a whole-row-set predicate (an
absent table inserts nothing, hence passes). -/
def optListOk {α : Type} (f : List α → Bool) : Option (List α) → Bool
  | none => true
  | some l => f l

/-- Every row set the snapshot would INSERT satisfies the UNIQUE and
PRIMARY KEY constraints of its table.  The restore deletes each table
before re-inserting, so only duplicates inside the snapshot itself can
collide: the schema declares `id INTEGER PRIMARY KEY` on every table but
`settings` (whose `key` is the primary key), plus UNIQUE on
`users.username` and `products.sku`. -/
def Snapshot.uniqueOk (b : Snapshot) : Bool :=
  optListOk (fun l => keysUnique (fun r : UserRow => r.id) l &&
    keysUnique (fun r : UserRow => r.username) l) b.users &&
  optListOk (keysUnique (fun r : SettingRow => r.key)) b.settings &&
  optListOk (fun l => keysUnique (fun r : ProductRow => r.id) l &&
    keysUnique (fun r : ProductRow => r.sku) l) b.products &&
  optListOk (keysUnique (fun r : WarehouseRow => r.id)) b.warehouses &&
  optListOk (keysUnique (fun r : SupplierRow => r.id)) b.suppliers &&
  optListOk (keysUnique (fun r : SupplierTransactionRow => r.id)) b.supplier_transactions &&
  optListOk (keysUnique (fun r : CustomerRow => r.id)) b.customers &&
  optListOk (keysUnique (fun r : SaleRow => r.id)) b.sales &&
  optListOk (keysUnique (fun r : SaleItemRow => r.id)) b.sale_items &&
  optListOk (keysUnique (fun r : TransactionRow => r.id)) b.transactions &&
  optListOk (keysUnique (fun r : MaintenanceRow => r.id)) b.maintenance &&
  optListOk (keysUnique (fun r : PurchaseRow => r.id)) b.purchases &&
  optListOk (keysUnique (fun r : PurchaseItemRow => r.id)) b.purchase_items &&
  optListOk (keysUnique (fun r : GeneralLedgerRow => r.id)) b.general_ledger &&
  optListOk (keysUnique (fun r : StockAdjustmentRow => r.id)) b.stock_adjustments

/-- Every stored row of the CHECK-constrained tables satisfies its CHECK
(true of any store actually produced through SQLite, whose CHECKs guard
each insert). -/
def DBState.validEnums (s : DBState) : Bool :=
  s.users.rows.all userRowOk && s.purchases.rows.all purchaseRowOk &&
  s.supplier_transactions.rows.all supplierTxRowOk && s.sales.rows.all saleRowOk &&
  s.transactions.rows.all transactionRowOk && s.general_ledger.rows.all ledgerRowOk &&
  s.stock_adjustments.rows.all stockAdjRowOk

/-- Every stored table satisfies its UNIQUE and PRIMARY KEY constraints
(true of any store actually produced through SQLite, whose unique indexes
reject duplicates at every insert).  Same column set as
`Snapshot.uniqueOk`. -/
def DBState.uniqueOk (s : DBState) : Bool :=
  (keysUnique (fun r : UserRow => r.id) s.users.rows &&
    keysUnique (fun r : UserRow => r.username) s.users.rows) &&
  keysUnique (fun r : SettingRow => r.key) s.settings.rows &&
  (keysUnique (fun r : ProductRow => r.id) s.products.rows &&
    keysUnique (fun r : ProductRow => r.sku) s.products.rows) &&
  keysUnique (fun r : WarehouseRow => r.id) s.warehouses.rows &&
  keysUnique (fun r : SupplierRow => r.id) s.suppliers.rows &&
  keysUnique (fun r : SupplierTransactionRow => r.id) s.supplier_transactions.rows &&
  keysUnique (fun r : CustomerRow => r.id) s.customers.rows &&
  keysUnique (fun r : SaleRow => r.id) s.sales.rows &&
  keysUnique (fun r : SaleItemRow => r.id) s.sale_items.rows &&
  keysUnique (fun r : TransactionRow => r.id) s.transactions.rows &&
  keysUnique (fun r : MaintenanceRow => r.id) s.maintenance.rows &&
  keysUnique (fun r : PurchaseRow => r.id) s.purchases.rows &&
  keysUnique (fun r : PurchaseItemRow => r.id) s.purchase_items.rows &&
  keysUnique (fun r : GeneralLedgerRow => r.id) s.general_ledger.rows &&
  keysUnique (fun r : StockAdjustmentRow => r.id) s.stock_adjustments.rows

/-- Every table key is present in the snapshot object — what the spec's
glossary calls a snapshot: "a full export of all Ledger Store tables". -/
def Snapshot.full (b : Snapshot) : Bool :=
  b.users.isSome && b.settings.isSome && b.products.isSome && b.warehouses.isSome &&
  b.suppliers.isSome && b.supplier_transactions.isSome && b.customers.isSome &&
  b.sales.isSome && b.sale_items.isSome && b.transactions.isSome && b.maintenance.isSome &&
  b.purchases.isSome && b.purchase_items.isSome && b.general_ledger.isSome &&
  b.stock_adjustments.isSome

/-- `POST /api/backup/import`, the `db.transaction` unit.  `fault` models
an infrastructure failure of some statement mid-restore; the intrinsic
failure sources for well-typed rows are a CHECK violation in a snapshot
row and a UNIQUE/PRIMARY KEY violation among the re-inserted rows (each
table is deleted first, so only duplicates within the snapshot itself can
collide).  Either way better-sqlite3 rolls back every statement of the
unit, so an `.error` result leaves the caller's store exactly `s` (the
handler answers 500). -/
def importBackup (b : Snapshot) (fault : Option String) (s : DBState) : Except String DBState :=
  match fault with
  | some e => .error e
  | none =>
      if Snapshot.valid b && Snapshot.uniqueOk b then .ok (importBackupApply b s)
      else .error "constraint failed during import"

/-- States reachable from startup through completed atomic units of the
ledger engine (only successful runs extend reachability; a rolled-back
unit leaves the state where it was). -/
inductive Reachable : DBState → Prop where
  | init : Reachable initState
  | step_createCustomer (inp : CustomerInput) {s : DBState} :
      Reachable s → Reachable (createCustomer inp s).1
  | step_createSupplier (inp : SupplierInput) {s : DBState} :
      Reachable s → Reachable (createSupplier inp s).1
  | step_recordSale (inp : SaleInput) {s s' : DBState} {i : Nat} :
      Reachable s → recordSale inp s = .ok (s', i) → Reachable s'
  | step_recordPurchase (inp : PurchaseInput) {s s' : DBState} {i : Nat} :
      Reachable s → recordPurchase inp s = .ok (s', i) → Reachable s'
  | step_recordCustomerPayment (cid : Nat) (amount : Rat) (descr : String) {s : DBState} :
      Reachable s → Reachable (recordCustomerPayment cid amount descr none s).1
  | step_recordSupplierPayment (sid : Nat) (amount : Rat) (descr : Option String) {s : DBState} :
      Reachable s → Reachable (recordSupplierPayment sid amount descr none s).1
  | step_recordStockAdjustment (inp : StockAdjustmentInput) {s s' : DBState} :
      Reachable s → recordStockAdjustment inp s = .ok s' → Reachable s'
  | step_recordLedgerEntry (inp : LedgerInput) {s s' : DBState} {i : Nat} :
      Reachable s → recordLedgerEntry inp s = .ok (s', i) → Reachable s'
  | step_importBackup (b : Snapshot) {s s' : DBState} :
      Reachable s → importBackup b none s = .ok s' → Reachable s'

/-- Net quantity the items loop of a sale subtracts from a given product:
the sum of `quantity` over the items hitting that product id. -/
def saleQty (pid : Nat) : List SaleItemInput → Int
  | [] => 0
  | it :: rest => (if it.product_id = pid then it.quantity else 0) + saleQty pid rest

/-- The `sale_items` rows a sale appends: one per input item, ids assigned
consecutively from the table's sequence, fields bound from the request. -/
def mkSaleItems (saleId seq : Nat) : List SaleItemInput → List SaleItemRow
  | [] => []
  | it :: rest =>
      { id := seq + 1, sale_id := saleId, product_id := it.product_id,
        quantity := it.quantity, unit_price := it.unit_price, subtotal := it.subtotal }
      :: mkSaleItems saleId (seq + 1) rest

/-- The customer-ledger rows a sale appends: the `sale` transaction, plus
the equal `payment` transaction exactly when the status is `paid`. -/
def saleTxRows (saleId cid : Nat) (total : Rat) (status : String) (seq clock : Nat) :
    List TransactionRow :=
  { id := seq + 1, customer_id := cid, type := "sale", amount := total,
    description := "Sale #" ++ toString saleId, created_at := clock }
  :: (if status = "paid" then
        [{ id := seq + 2, customer_id := cid, type := "payment", amount := total,
           description := "Payment for Sale #" ++ toString saleId, created_at := clock }]
      else [])

/-- Net quantity the items loop of a purchase adds to a given product. -/
def purchaseQty (pid : Nat) : List PurchaseItemInput → Int
  | [] => 0
  | it :: rest => (if it.product_id = pid then it.quantity else 0) + purchaseQty pid rest

/-- Last-cost-wins: the cost a product ends with after the purchase items
loop, starting from its current cost. -/
def lastUnitCost (pid : Nat) : List PurchaseItemInput → Rat → Rat
  | [], c => c
  | it :: rest, c => lastUnitCost pid rest (if it.product_id = pid then it.unit_cost else c)

/-- The `purchase_items` rows a purchase appends. -/
def mkPurchaseItems (purchaseId seq : Nat) : List PurchaseItemInput → List PurchaseItemRow
  | [] => []
  | it :: rest =>
      { id := seq + 1, purchase_id := purchaseId, product_id := it.product_id,
        quantity := it.quantity, unit_cost := it.unit_cost, subtotal := it.subtotal }
      :: mkPurchaseItems purchaseId (seq + 1) rest

/-- The supplier-ledger rows a purchase appends. -/
def purchaseTxRows (purchaseId sid : Nat) (total : Rat) (status : String) (seq clock : Nat) :
    List SupplierTransactionRow :=
  { id := seq + 1, supplier_id := sid, type := "purchase", amount := total,
    description := "Purchase #" ++ toString purchaseId, created_at := clock }
  :: (if status = "paid" then
        [{ id := seq + 2, supplier_id := sid, type := "payment", amount := total,
           description := "Payment for Purchase #" ++ toString purchaseId, created_at := clock }]
      else [])

/-- The `sales` header row a sale inserts. -/
def saleHeaderRow (inp : SaleInput) (s : DBState) : SaleRow :=
  { id := s.sales.seq + 1, customer_id := inp.customer_id, user_id := inp.user_id,
    total_amount := inp.total_amount, discount := inp.discount,
    payment_status := inp.payment_status, payment_method := inp.payment_method,
    created_at := s.now }

/-- The `purchases` header row a purchase inserts. -/
def purchaseHeaderRow (inp : PurchaseInput) (s : DBState) : PurchaseRow :=
  { id := s.purchases.seq + 1, supplier_id := inp.supplier_id, user_id := inp.user_id,
    total_amount := inp.total_amount, payment_status := inp.payment_status,
    created_at := s.now }

/-- The core-contract invariant of the spec, customer side: every stored
balance equals the log-derived balance. -/
def customerBalanceInv (s : DBState) : Prop :=
  ∀ c ∈ s.customers.rows, c.balance = customerLogBalance c.id s.transactions.rows

/-- The core-contract invariant, supplier side. -/
def supplierBalanceInv (s : DBState) : Prop :=
  ∀ c ∈ s.suppliers.rows, c.balance = supplierLogBalance c.id s.supplier_transactions.rows

/-- Claim C1 as stated: the invariant holds in every state reachable
through completed atomic units. -/
def ClaimC1 : Prop := ∀ s, Reachable s → customerBalanceInv s ∧ supplierBalanceInv s

/-- Claim C5's stock-adjustment contract as stated: a request that does
not satisfy `quantity > 0` and `kind ∈ {damaged, lost, correction}` is
answered 400, i.e. never succeeds. -/
def ClaimC5 : Prop :=
  ∀ inp s s', recordStockAdjustment inp s = .ok s' →
    stockAdjustmentTypeOk inp.type = true ∧ 0 < inp.quantity

/-- Claim C6 as stated: in every reachable state, a paid sale referencing
a stored customer leaves that customer's stored balance unchanged. -/
def ClaimC6 : Prop :=
  ∀ s, Reachable s → ∀ c ∈ s.customers.rows, ∀ inp s' i,
    inp.customer_id = some c.id → inp.payment_status = "paid" →
    recordSale inp s = .ok (s', i) →
    ∀ c' ∈ s'.customers.rows, c'.id = c.id → c'.balance = c.balance

/-- Every stored sale item satisfies `subtotal = quantity × unit price`. -/
def saleItemsOk (l : List SaleItemRow) : Prop :=
  ∀ r ∈ l, r.subtotal = (r.quantity : Rat) * r.unit_price

/-- Claim C8 as stated: RecordSale only ever stores sale items whose
subtotal is quantity × unit price. -/
def ClaimC8 : Prop :=
  ∀ s inp s' i, recordSale inp s = .ok (s', i) →
    saleItemsOk s.sale_items.rows → saleItemsOk s'.sale_items.rows

/-- A concrete `POST /api/customers` body with a nonzero opening balance. -/
def cInputA : CustomerInput :=
  { name := "A", phone := "", email := "", address := "", opening_balance := 5, notes := "" }

/-- The store right after creating that customer: reachable, customer 1
has stored balance 5 and an empty movement log. -/
def stateA : DBState := (createCustomer cInputA initState).1

/-- A concrete paid sale of 20 referencing customer 1. -/
def saleInputPaid : SaleInput :=
  { customer_id := some 1, user_id := 1, total_amount := 20, discount := 0,
    payment_status := "paid", payment_method := "cash",
    items := [{ product_id := 1, quantity := 2, unit_price := 10, subtotal := 20 }] }

/-- A concrete sale whose item carries a subtotal different from
quantity × unit price (the handler stores it verbatim). -/
def saleInputBadSubtotal : SaleInput :=
  { customer_id := none, user_id := 1, total_amount := 20, discount := 0,
    payment_status := "unpaid", payment_method := "cash",
    items := [{ product_id := 1, quantity := 2, unit_price := 10, subtotal := 999 }] }

/-- A concrete paid purchase of 15 from supplier 1. -/
def purchaseInputPaid : PurchaseInput :=
  { supplier_id := 1, user_id := 1, total_amount := 15, payment_status := "paid",
    items := [{ product_id := 7, quantity := 5, unit_cost := 3, subtotal := 15 }] }

/-- A concrete stock adjustment with a negative quantity and a valid kind. -/
def adjInputNeg : StockAdjustmentInput :=
  { product_id := 1, type := "damaged", quantity := -5, reason := "recount" }

/-- A concrete full snapshot: every table key present, `customers` empty,
one product row. -/
def snapshotB0 : Snapshot :=
  { users := some [{ id := 1, username := "admin", password := "admin123", role := "admin" }],
    settings := some [],
    products := some [{ id := 7, name := "P", category := "phone", brand := "B", model := "M",
                        sku := "SKU7", price := 10, cost := 3, stock_quantity := 4,
                        opening_stock := 4, min_stock_level := 5, unit := "pc", notes := "",
                        warehouse_id := 0, location := "" }],
    warehouses := some [],
    suppliers := some [],
    supplier_transactions := some [],
    customers := some [],
    sales := some [],
    sale_items := some [],
    transactions := some [],
    maintenance := some [],
    purchases := some [],
    purchase_items := some [],
    general_ledger := some [],
    stock_adjustments := some [] }

theorem transactionsSum_append (ty : String) (cid : Nat) (l l' : List TransactionRow) :
    transactionsSum ty cid (l ++ l') = transactionsSum ty cid l + transactionsSum ty cid l' := by
  induction l with
  | nil => simp [transactionsSum]
  | cons r rest ih => simp [transactionsSum, ih]; ring

theorem supplierTransactionsSum_append (ty : String) (sid : Nat) (l l' : List SupplierTransactionRow) :
    supplierTransactionsSum ty sid (l ++ l') =
      supplierTransactionsSum ty sid l + supplierTransactionsSum ty sid l' := by
  induction l with
  | nil => simp [supplierTransactionsSum]
  | cons r rest ih => simp [supplierTransactionsSum, ih]; ring

theorem balance_in_map_customers (cid : Nat) (B : Rat) (rows : List CustomerRow) :
    ∀ c ∈ rows.map (fun c => if c.id = cid then { c with balance := B } else c),
      c.id = cid → c.balance = B := by
  intro c hc hid
  rw [List.mem_map] at hc
  obtain ⟨a, -, rfl⟩ := hc
  by_cases h : a.id = cid
  · rw [if_pos h]
  · rw [if_neg h] at hid
    exact absurd hid h

theorem balance_in_map_suppliers (sid : Nat) (B : Rat) (rows : List SupplierRow) :
    ∀ c ∈ rows.map (fun c => if c.id = sid then { c with balance := B } else c),
      c.id = sid → c.balance = B := by
  intro c hc hid
  rw [List.mem_map] at hc
  obtain ⟨a, -, rfl⟩ := hc
  by_cases h : a.id = sid
  · rw [if_pos h]
  · rw [if_neg h] at hid
    exact absurd hid h

theorem applySaleItems_frame (saleId : Nat) (l : List SaleItemInput) (s : DBState) :
    (applySaleItems saleId l s).users = s.users ∧
    (applySaleItems saleId l s).settings = s.settings ∧
    (applySaleItems saleId l s).warehouses = s.warehouses ∧
    (applySaleItems saleId l s).suppliers = s.suppliers ∧
    (applySaleItems saleId l s).supplier_transactions = s.supplier_transactions ∧
    (applySaleItems saleId l s).customers = s.customers ∧
    (applySaleItems saleId l s).sales = s.sales ∧
    (applySaleItems saleId l s).transactions = s.transactions ∧
    (applySaleItems saleId l s).maintenance = s.maintenance ∧
    (applySaleItems saleId l s).purchases = s.purchases ∧
    (applySaleItems saleId l s).purchase_items = s.purchase_items ∧
    (applySaleItems saleId l s).general_ledger = s.general_ledger ∧
    (applySaleItems saleId l s).stock_adjustments = s.stock_adjustments ∧
    (applySaleItems saleId l s).now = s.now := by
  induction l generalizing s with
  | nil => simp [applySaleItems]
  | cons it rest ih =>
      rw [applySaleItems]
      simpa [applySaleItem] using ih (applySaleItem saleId it s)

theorem applySaleItems_sale_items (saleId : Nat) (l : List SaleItemInput) (s : DBState) :
    (applySaleItems saleId l s).sale_items =
      { rows := s.sale_items.rows ++ mkSaleItems saleId s.sale_items.seq l,
        seq := s.sale_items.seq + l.length } := by
  induction l generalizing s with
  | nil => simp [applySaleItems, mkSaleItems]
  | cons it rest ih =>
      rw [applySaleItems, ih]
      simp [applySaleItem, Table.insertAuto, mkSaleItems, List.append_assoc]
      omega

theorem applySaleItems_products (saleId : Nat) (l : List SaleItemInput) (s : DBState) :
    (applySaleItems saleId l s).products.rows =
      s.products.rows.map (fun p => { p with stock_quantity := p.stock_quantity - saleQty p.id l }) := by
  induction l generalizing s with
  | nil => simp [applySaleItems, saleQty]
  | cons it rest ih =>
      rw [applySaleItems, ih]
      simp only [applySaleItem, Table.insertAuto, List.map_map]
      apply List.map_congr_left
      intro p _
      by_cases h : p.id = it.product_id
      · simp only [Function.comp_apply, if_pos h, saleQty]
        rw [if_pos h.symm]
        simp [sub_sub]
      · simp only [Function.comp_apply, if_neg h, saleQty]
        rw [if_neg (fun hh => h hh.symm)]
        simp

theorem applyPurchaseItems_frame (purchaseId : Nat) (l : List PurchaseItemInput) (s : DBState) :
    (applyPurchaseItems purchaseId l s).users = s.users ∧
    (applyPurchaseItems purchaseId l s).settings = s.settings ∧
    (applyPurchaseItems purchaseId l s).warehouses = s.warehouses ∧
    (applyPurchaseItems purchaseId l s).suppliers = s.suppliers ∧
    (applyPurchaseItems purchaseId l s).supplier_transactions = s.supplier_transactions ∧
    (applyPurchaseItems purchaseId l s).customers = s.customers ∧
    (applyPurchaseItems purchaseId l s).sales = s.sales ∧
    (applyPurchaseItems purchaseId l s).sale_items = s.sale_items ∧
    (applyPurchaseItems purchaseId l s).transactions = s.transactions ∧
    (applyPurchaseItems purchaseId l s).maintenance = s.maintenance ∧
    (applyPurchaseItems purchaseId l s).purchases = s.purchases ∧
    (applyPurchaseItems purchaseId l s).general_ledger = s.general_ledger ∧
    (applyPurchaseItems purchaseId l s).stock_adjustments = s.stock_adjustments ∧
    (applyPurchaseItems purchaseId l s).now = s.now := by
  induction l generalizing s with
  | nil => simp [applyPurchaseItems]
  | cons it rest ih =>
      rw [applyPurchaseItems]
      simpa [applyPurchaseItem] using ih (applyPurchaseItem purchaseId it s)

theorem applyPurchaseItems_purchase_items (purchaseId : Nat) (l : List PurchaseItemInput) (s : DBState) :
    (applyPurchaseItems purchaseId l s).purchase_items =
      { rows := s.purchase_items.rows ++ mkPurchaseItems purchaseId s.purchase_items.seq l,
        seq := s.purchase_items.seq + l.length } := by
  induction l generalizing s with
  | nil => simp [applyPurchaseItems, mkPurchaseItems]
  | cons it rest ih =>
      rw [applyPurchaseItems, ih]
      simp [applyPurchaseItem, Table.insertAuto, mkPurchaseItems, List.append_assoc]
      omega

theorem applyPurchaseItems_products (purchaseId : Nat) (l : List PurchaseItemInput) (s : DBState) :
    (applyPurchaseItems purchaseId l s).products.rows =
      s.products.rows.map (fun p =>
        { p with stock_quantity := p.stock_quantity + purchaseQty p.id l,
                 cost := lastUnitCost p.id l p.cost }) := by
  induction l generalizing s with
  | nil => simp [applyPurchaseItems, purchaseQty, lastUnitCost]
  | cons it rest ih =>
      rw [applyPurchaseItems, ih]
      simp only [applyPurchaseItem, Table.insertAuto, List.map_map]
      apply List.map_congr_left
      intro p _
      by_cases h : p.id = it.product_id
      · simp only [Function.comp_apply, if_pos h, purchaseQty, lastUnitCost]
        rw [if_pos h.symm, if_pos h.symm]
        simp [add_assoc]
      · simp only [Function.comp_apply, if_neg h, purchaseQty, lastUnitCost]
        rw [if_neg (fun hh => h hh.symm), if_neg (fun hh => h hh.symm)]
        simp

theorem applySaleCustomer_transactions (saleId cid : Nat) (total : Rat) (status : String) (s : DBState) :
    (applySaleCustomer saleId cid total status s).transactions.rows =
      s.transactions.rows ++ saleTxRows saleId cid total status s.transactions.seq s.now := by
  by_cases h : status = "paid" <;>
    simp [applySaleCustomer, updateCustomerBalance, Table.insertAuto, saleTxRows, h]

theorem applySaleCustomer_customers (saleId cid : Nat) (total : Rat) (status : String) (s : DBState) :
    (applySaleCustomer saleId cid total status s).customers.rows =
      s.customers.rows.map (fun c =>
        if c.id = cid then
          { c with balance := customerLogBalance cid (s.transactions.rows ++
              saleTxRows saleId cid total status s.transactions.seq s.now) }
        else c) := by
  by_cases h : status = "paid" <;>
    simp [applySaleCustomer, updateCustomerBalance, Table.insertAuto, saleTxRows, h]

theorem applySaleCustomer_frame (saleId cid : Nat) (total : Rat) (status : String) (s : DBState) :
    (applySaleCustomer saleId cid total status s).users = s.users ∧
    (applySaleCustomer saleId cid total status s).settings = s.settings ∧
    (applySaleCustomer saleId cid total status s).products = s.products ∧
    (applySaleCustomer saleId cid total status s).warehouses = s.warehouses ∧
    (applySaleCustomer saleId cid total status s).suppliers = s.suppliers ∧
    (applySaleCustomer saleId cid total status s).supplier_transactions = s.supplier_transactions ∧
    (applySaleCustomer saleId cid total status s).sales = s.sales ∧
    (applySaleCustomer saleId cid total status s).sale_items = s.sale_items ∧
    (applySaleCustomer saleId cid total status s).maintenance = s.maintenance ∧
    (applySaleCustomer saleId cid total status s).purchases = s.purchases ∧
    (applySaleCustomer saleId cid total status s).purchase_items = s.purchase_items ∧
    (applySaleCustomer saleId cid total status s).general_ledger = s.general_ledger ∧
    (applySaleCustomer saleId cid total status s).stock_adjustments = s.stock_adjustments ∧
    (applySaleCustomer saleId cid total status s).now = s.now := by
  by_cases h : status = "paid" <;> simp [applySaleCustomer, updateCustomerBalance, h]

theorem applyPurchaseSupplier_supplier_transactions (purchaseId sid : Nat) (total : Rat)
    (status : String) (s : DBState) :
    (applyPurchaseSupplier purchaseId sid total status s).supplier_transactions.rows =
      s.supplier_transactions.rows ++
        purchaseTxRows purchaseId sid total status s.supplier_transactions.seq s.now := by
  by_cases h : status = "paid" <;>
    simp [applyPurchaseSupplier, updateSupplierBalance, Table.insertAuto, purchaseTxRows, h]

theorem applyPurchaseSupplier_suppliers (purchaseId sid : Nat) (total : Rat)
    (status : String) (s : DBState) :
    (applyPurchaseSupplier purchaseId sid total status s).suppliers.rows =
      s.suppliers.rows.map (fun c =>
        if c.id = sid then
          { c with balance := supplierLogBalance sid (s.supplier_transactions.rows ++
              purchaseTxRows purchaseId sid total status s.supplier_transactions.seq s.now) }
        else c) := by
  by_cases h : status = "paid" <;>
    simp [applyPurchaseSupplier, updateSupplierBalance, Table.insertAuto, purchaseTxRows, h]

theorem applyPurchaseSupplier_frame (purchaseId sid : Nat) (total : Rat)
    (status : String) (s : DBState) :
    (applyPurchaseSupplier purchaseId sid total status s).users = s.users ∧
    (applyPurchaseSupplier purchaseId sid total status s).settings = s.settings ∧
    (applyPurchaseSupplier purchaseId sid total status s).products = s.products ∧
    (applyPurchaseSupplier purchaseId sid total status s).warehouses = s.warehouses ∧
    (applyPurchaseSupplier purchaseId sid total status s).customers = s.customers ∧
    (applyPurchaseSupplier purchaseId sid total status s).sales = s.sales ∧
    (applyPurchaseSupplier purchaseId sid total status s).sale_items = s.sale_items ∧
    (applyPurchaseSupplier purchaseId sid total status s).transactions = s.transactions ∧
    (applyPurchaseSupplier purchaseId sid total status s).maintenance = s.maintenance ∧
    (applyPurchaseSupplier purchaseId sid total status s).purchases = s.purchases ∧
    (applyPurchaseSupplier purchaseId sid total status s).purchase_items = s.purchase_items ∧
    (applyPurchaseSupplier purchaseId sid total status s).general_ledger = s.general_ledger ∧
    (applyPurchaseSupplier purchaseId sid total status s).stock_adjustments = s.stock_adjustments ∧
    (applyPurchaseSupplier purchaseId sid total status s).now = s.now := by
  by_cases h : status = "paid" <;> simp [applyPurchaseSupplier, updateSupplierBalance, h]

theorem recordSale_ok (inp : SaleInput) (s : DBState)
    (hps : paymentStatusOk inp.payment_status = true) :
    recordSale inp s = .ok (applySaleItems (s.sales.seq + 1) inp.items
      (match inp.customer_id with
       | some cid => applySaleCustomer (s.sales.seq + 1) cid inp.total_amount inp.payment_status
           { s with sales := { rows := s.sales.rows ++ [saleHeaderRow inp s],
                               seq := s.sales.seq + 1 } }
       | none => { s with sales := { rows := s.sales.rows ++ [saleHeaderRow inp s],
                                     seq := s.sales.seq + 1 } }),
      s.sales.seq + 1) := by
  simp [recordSale, hps, Table.insertAuto, saleHeaderRow]

theorem recordPurchase_ok (inp : PurchaseInput) (s : DBState)
    (hps : paymentStatusOk inp.payment_status = true) :
    recordPurchase inp s = .ok (applyPurchaseItems (s.purchases.seq + 1) inp.items
      (applyPurchaseSupplier (s.purchases.seq + 1) inp.supplier_id inp.total_amount
        inp.payment_status
        { s with purchases := { rows := s.purchases.rows ++ [purchaseHeaderRow inp s],
                                seq := s.purchases.seq + 1 } }),
      s.purchases.seq + 1) := by
  simp [recordPurchase, hps, Table.insertAuto, purchaseHeaderRow]

/-- C4: for every valid RecordSale input, `POST /api/sales` inserts one
sale header (returning its new identifier), inserts one `sale_items` row
per input item, decrements each referenced product's `stock_quantity` by
the item's quantity with no floor check, and — when `customer_id` is
present — appends one `sale` transaction for `total_amount` plus one
`payment` transaction of the same amount exactly when `payment_status` is
`paid`, then recomputes and persists that customer's stored balance from
the full transaction log. -/
theorem C4_recordSale_spec (inp : SaleInput) (s : DBState)
    (hps : paymentStatusOk inp.payment_status = true) :
    ∃ s', recordSale inp s = .ok (s', s.sales.seq + 1) ∧
      s'.sales.rows = s.sales.rows ++ [saleHeaderRow inp s] ∧
      s'.sale_items.rows =
        s.sale_items.rows ++ mkSaleItems (s.sales.seq + 1) s.sale_items.seq inp.items ∧
      s'.products.rows = s.products.rows.map (fun p =>
        { p with stock_quantity := p.stock_quantity - saleQty p.id inp.items }) ∧
      s'.transactions.rows = s.transactions.rows ++ (match inp.customer_id with
        | some cid => saleTxRows (s.sales.seq + 1) cid inp.total_amount inp.payment_status
            s.transactions.seq s.now
        | none => []) ∧
      (∀ cid, inp.customer_id = some cid →
        ∀ c ∈ s'.customers.rows, c.id = cid →
          c.balance = customerLogBalance cid s'.transactions.rows) := by
  rw [recordSale_ok inp s hps]
  cases hcid : inp.customer_id with
  | none =>
    obtain ⟨-, -, -, -, -, -, hSa, hT, -, -, -, -, -, -⟩ :=
      applySaleItems_frame (s.sales.seq + 1) inp.items
        { s with sales := { rows := s.sales.rows ++ [saleHeaderRow inp s],
                            seq := s.sales.seq + 1 } }
    refine ⟨_, rfl, ?_, ?_, ?_, ?_, ?_⟩
    · rw [hSa]
    · rw [applySaleItems_sale_items]
    · rw [applySaleItems_products]
    · rw [hT]; simp
    · intro cid h
      exact Option.noConfusion h
  | some cid =>
    obtain ⟨-, -, -, -, -, hC, hSa, hT, -, -, -, -, -, -⟩ :=
      applySaleItems_frame (s.sales.seq + 1) inp.items
        (applySaleCustomer (s.sales.seq + 1) cid inp.total_amount inp.payment_status
          { s with sales := { rows := s.sales.rows ++ [saleHeaderRow inp s],
                              seq := s.sales.seq + 1 } })
    obtain ⟨-, -, hP2, -, -, -, hSa2, hSI2, -, -, -, -, -, -⟩ :=
      applySaleCustomer_frame (s.sales.seq + 1) cid inp.total_amount inp.payment_status
        { s with sales := { rows := s.sales.rows ++ [saleHeaderRow inp s],
                            seq := s.sales.seq + 1 } }
    refine ⟨_, rfl, ?_, ?_, ?_, ?_, ?_⟩
    · rw [hSa, hSa2]
    · rw [applySaleItems_sale_items, hSI2]
    · rw [applySaleItems_products, hP2]
    · rw [hT, applySaleCustomer_transactions]
    · intro cid' h c hcmem hcid'
      injection h with h'
      subst h'
      rw [hT, applySaleCustomer_transactions]
      rw [hC, applySaleCustomer_customers] at hcmem
      exact balance_in_map_customers cid _ _ c hcmem hcid'

theorem C4_recordSale_spec_witness :
    paymentStatusOk saleInputPaid.payment_status = true ∧
    ∃ s', recordSale saleInputPaid stateA = .ok (s', stateA.sales.seq + 1) ∧
      s'.sales.rows = stateA.sales.rows ++ [saleHeaderRow saleInputPaid stateA] ∧
      s'.sale_items.rows = stateA.sale_items.rows ++
        mkSaleItems (stateA.sales.seq + 1) stateA.sale_items.seq saleInputPaid.items :=
  ⟨by decide, by
    obtain ⟨s', h1, h2, h3, -⟩ := C4_recordSale_spec saleInputPaid stateA (by decide)
    exact ⟨s', h1, h2, h3⟩⟩

/-- C7: for every valid RecordPurchase input, `POST /api/purchases`
inserts one purchase header (returning its new identifier), one
`purchase` supplier transaction for `total_amount` plus one `payment`
supplier transaction of the same amount exactly when `payment_status` is
`paid`, recomputes the supplier's stored balance from the full
supplier-transaction log, and, per item, inserts one `purchase_items`
row, increments the product's `stock_quantity` by the item's quantity,
and overwrites the product's cost with that item's `unit_cost`
(last-cost-wins, whatever the prior cost). -/
theorem C7_recordPurchase_spec (inp : PurchaseInput) (s : DBState)
    (hps : paymentStatusOk inp.payment_status = true) :
    ∃ s', recordPurchase inp s = .ok (s', s.purchases.seq + 1) ∧
      s'.purchases.rows = s.purchases.rows ++ [purchaseHeaderRow inp s] ∧
      s'.purchase_items.rows = s.purchase_items.rows ++
        mkPurchaseItems (s.purchases.seq + 1) s.purchase_items.seq inp.items ∧
      s'.products.rows = s.products.rows.map (fun p =>
        { p with stock_quantity := p.stock_quantity + purchaseQty p.id inp.items,
                 cost := lastUnitCost p.id inp.items p.cost }) ∧
      s'.supplier_transactions.rows = s.supplier_transactions.rows ++
        purchaseTxRows (s.purchases.seq + 1) inp.supplier_id inp.total_amount
          inp.payment_status s.supplier_transactions.seq s.now ∧
      (∀ c ∈ s'.suppliers.rows, c.id = inp.supplier_id →
        c.balance = supplierLogBalance inp.supplier_id s'.supplier_transactions.rows) := by
  rw [recordPurchase_ok inp s hps]
  obtain ⟨-, -, -, hSup, hST, -, -, -, -, -, hPur, -, -, -⟩ :=
    applyPurchaseItems_frame (s.purchases.seq + 1) inp.items
      (applyPurchaseSupplier (s.purchases.seq + 1) inp.supplier_id inp.total_amount
        inp.payment_status
        { s with purchases := { rows := s.purchases.rows ++ [purchaseHeaderRow inp s],
                                seq := s.purchases.seq + 1 } })
  obtain ⟨-, -, hP2, -, -, -, -, -, -, hPur2, hPI2, -, -, -⟩ :=
    applyPurchaseSupplier_frame (s.purchases.seq + 1) inp.supplier_id inp.total_amount
      inp.payment_status
      { s with purchases := { rows := s.purchases.rows ++ [purchaseHeaderRow inp s],
                              seq := s.purchases.seq + 1 } }
  refine ⟨_, rfl, ?_, ?_, ?_, ?_, ?_⟩
  · rw [hPur, hPur2]
  · rw [applyPurchaseItems_purchase_items, hPI2]
  · rw [applyPurchaseItems_products, hP2]
  · rw [hST, applyPurchaseSupplier_supplier_transactions]
  · intro c hcmem hcid
    rw [hST, applyPurchaseSupplier_supplier_transactions]
    rw [hSup, applyPurchaseSupplier_suppliers] at hcmem
    exact balance_in_map_suppliers inp.supplier_id _ _ c hcmem hcid

theorem C7_recordPurchase_spec_witness :
    paymentStatusOk purchaseInputPaid.payment_status = true ∧
    ∃ s', recordPurchase purchaseInputPaid initState = .ok (s', initState.purchases.seq + 1) ∧
      s'.purchases.rows = initState.purchases.rows ++ [purchaseHeaderRow purchaseInputPaid initState] ∧
      s'.supplier_transactions.rows = initState.supplier_transactions.rows ++
        purchaseTxRows (initState.purchases.seq + 1) purchaseInputPaid.supplier_id
          purchaseInputPaid.total_amount purchaseInputPaid.payment_status
          initState.supplier_transactions.seq initState.now :=
  ⟨by decide, by
    obtain ⟨s', h1, h2, -, -, h5, -⟩ := C7_recordPurchase_spec purchaseInputPaid initState (by decide)
    exact ⟨s', h1, h2, h5⟩⟩

/-- C10: a RecordSale whose input has no `customer_id` skips the whole
customer-ledger block: it inserts no `transactions` row and leaves every
row of `customers` (balances included) unchanged — in fact every table
other than `sales`, `sale_items` and `products` is untouched. -/
theorem C10_recordSale_noCustomer_frame (inp : SaleInput) (s s' : DBState) (i : Nat)
    (hnone : inp.customer_id = none) (hok : recordSale inp s = .ok (s', i)) :
    s'.transactions = s.transactions ∧
    s'.customers = s.customers ∧
    s'.users = s.users ∧
    s'.settings = s.settings ∧
    s'.warehouses = s.warehouses ∧
    s'.suppliers = s.suppliers ∧
    s'.supplier_transactions = s.supplier_transactions ∧
    s'.maintenance = s.maintenance ∧
    s'.purchases = s.purchases ∧
    s'.purchase_items = s.purchase_items ∧
    s'.general_ledger = s.general_ledger ∧
    s'.stock_adjustments = s.stock_adjustments ∧
    s'.now = s.now := by
  by_cases hps : paymentStatusOk inp.payment_status = true
  · rw [recordSale_ok inp s hps, hnone] at hok
    simp only [Except.ok.injEq, Prod.mk.injEq] at hok
    obtain ⟨rfl, -⟩ := hok
    obtain ⟨hU, hSet, hW, hSup, hST, hC, -, hT, hM, hPur, hPI, hGL, hSA, hN⟩ :=
      applySaleItems_frame (s.sales.seq + 1) inp.items
        { s with sales := { rows := s.sales.rows ++ [saleHeaderRow inp s],
                            seq := s.sales.seq + 1 } }
    exact ⟨hT, hC, hU, hSet, hW, hSup, hST, hM, hPur, hPI, hGL, hSA, hN⟩
  · simp [recordSale, hps] at hok

theorem C10_recordSale_noCustomer_frame_witness :
    saleInputBadSubtotal.customer_id = none ∧
    ∃ s' i, recordSale saleInputBadSubtotal initState = .ok (s', i) ∧
      s'.transactions = initState.transactions ∧ s'.customers = initState.customers := by
  have hok := recordSale_ok saleInputBadSubtotal initState (by decide)
  obtain ⟨h1, h2, -⟩ :=
    C10_recordSale_noCustomer_frame saleInputBadSubtotal initState _ _ rfl hok
  exact ⟨rfl, _, _, hok, h1, h2⟩

/-- C1, counterexample: `POST /api/customers` with `opening_balance = 5`
initializes the stored `balance` column to 5 while writing no
`transactions` row, so right after this atomic unit completes the stored
balance (5) differs from the log-derived balance (0) — the invariant does
not hold in every reachable state. -/
theorem C1_counterexample : ¬ ClaimC1 := by
  intro h
  have hr : Reachable stateA := Reachable.step_createCustomer cInputA Reachable.init
  have hinv := (h stateA hr).1
  simp only [customerBalanceInv] at hinv
  have hmem : ({ id := 1, name := "A", phone := "", email := "", address := "",
                 opening_balance := 5, balance := 5, notes := "" } : CustomerRow)
      ∈ stateA.customers.rows := by decide
  have hbad := hinv _ hmem
  simp [stateA, createCustomer, cInputA, initState, Table.insertAuto,
        customerLogBalance, transactionsSum] at hbad

/-- C1 amended: the balance equality is (re-)established for the
referenced party by every completed balance-recomputing unit —
RecordCustomerPayment, RecordSale (with a customer), RecordSupplierPayment
and RecordPurchase — because each ends by recomputing the stored balance
from the full movement log; it is NOT an invariant of every reachable
state, since customer creation initializes the stored balance to
`opening_balance` with an empty log and a restore copies stored balances
verbatim without recomputation. -/
theorem C1_amended_recompute (s : DBState) :
    (∀ cid amount descr, ∀ c ∈ (recordCustomerPayment cid amount descr none s).1.customers.rows,
      c.id = cid → c.balance =
        customerLogBalance cid (recordCustomerPayment cid amount descr none s).1.transactions.rows) ∧
    (∀ inp cid s' i, inp.customer_id = some cid → recordSale inp s = .ok (s', i) →
      ∀ c ∈ s'.customers.rows, c.id = cid →
        c.balance = customerLogBalance cid s'.transactions.rows) ∧
    (∀ sid amount descr, ∀ c ∈ (recordSupplierPayment sid amount descr none s).1.suppliers.rows,
      c.id = sid → c.balance =
        supplierLogBalance sid (recordSupplierPayment sid amount descr none s).1.supplier_transactions.rows) ∧
    (∀ inp s' i, recordPurchase inp s = .ok (s', i) →
      ∀ c ∈ s'.suppliers.rows, c.id = inp.supplier_id →
        c.balance = supplierLogBalance inp.supplier_id s'.supplier_transactions.rows) := by
  refine ⟨?_, ?_, ?_, ?_⟩
  · intro cid amount descr c hc hid
    simp only [recordCustomerPayment, runNoTx, List.foldl, updateCustomerBalance] at hc ⊢
    exact balance_in_map_customers cid _ _ c hc hid
  · intro inp cid s' i hcid hok c hc hidc
    by_cases hps : paymentStatusOk inp.payment_status = true
    · rw [recordSale_ok inp s hps, hcid] at hok
      simp only [Except.ok.injEq, Prod.mk.injEq] at hok
      obtain ⟨rfl, -⟩ := hok
      obtain ⟨-, -, -, -, -, hC, -, hT, -, -, -, -, -, -⟩ :=
        applySaleItems_frame (s.sales.seq + 1) inp.items
          (applySaleCustomer (s.sales.seq + 1) cid inp.total_amount inp.payment_status
            { s with sales := { rows := s.sales.rows ++ [saleHeaderRow inp s],
                                seq := s.sales.seq + 1 } })
      rw [hT, applySaleCustomer_transactions]
      rw [hC, applySaleCustomer_customers] at hc
      exact balance_in_map_customers cid _ _ c hc hidc
    · simp [recordSale, hps] at hok
  · intro sid amount descr c hc hid
    simp only [recordSupplierPayment, runNoTx, List.foldl, updateSupplierBalance] at hc ⊢
    exact balance_in_map_suppliers sid _ _ c hc hid
  · intro inp s' i hok c hc hidc
    by_cases hps : paymentStatusOk inp.payment_status = true
    · rw [recordPurchase_ok inp s hps] at hok
      simp only [Except.ok.injEq, Prod.mk.injEq] at hok
      obtain ⟨rfl, -⟩ := hok
      obtain ⟨-, -, -, hSup, hST, -, -, -, -, -, -, -, -, -⟩ :=
        applyPurchaseItems_frame (s.purchases.seq + 1) inp.items
          (applyPurchaseSupplier (s.purchases.seq + 1) inp.supplier_id inp.total_amount
            inp.payment_status
            { s with purchases := { rows := s.purchases.rows ++ [purchaseHeaderRow inp s],
                                    seq := s.purchases.seq + 1 } })
      rw [hST, applyPurchaseSupplier_supplier_transactions]
      rw [hSup, applyPurchaseSupplier_suppliers] at hc
      exact balance_in_map_suppliers inp.supplier_id _ _ c hc hidc
    · simp [recordPurchase, hps] at hok

theorem C1_amended_recompute_witness :
    ({ id := 1, name := "A", phone := "", email := "", address := "",
       opening_balance := 5, balance := -10, notes := "" } : CustomerRow).balance =
      customerLogBalance 1 (recordCustomerPayment 1 10 "cash" none stateA).1.transactions.rows := by
  have hmem : ({ id := 1, name := "A", phone := "", email := "", address := "",
                 opening_balance := 5, balance := -10, notes := "" } : CustomerRow) ∈
      (recordCustomerPayment 1 10 "cash" none stateA).1.customers.rows := by
    simp [recordCustomerPayment, runNoTx, insertCustomerPayment, updateCustomerBalance,
          stateA, createCustomer, cInputA, initState, Table.insertAuto, customerLogBalance,
          transactionsSum]
  exact (C1_amended_recompute stateA).1 1 10 "cash" _ hmem rfl

/-- C6, counterexample: in the reachable state where customer 1 was just
created with `opening_balance = 5` (stored balance 5, empty movement log),
a paid sale of 20 referencing that customer recomputes the stored balance
from the log — which nets to 0 — so the stored balance changes from 5 to
0; the claim's "balance unchanged" fails for stale stored balances. -/
theorem C6_counterexample : ¬ ClaimC6 := by
  intro h
  have hr : Reachable stateA := Reachable.step_createCustomer cInputA Reachable.init
  have hmem : ({ id := 1, name := "A", phone := "", email := "", address := "",
                 opening_balance := 5, balance := 5, notes := "" } : CustomerRow)
      ∈ stateA.customers.rows := by decide
  obtain ⟨s1, hok, hrows⟩ : ∃ s1, recordSale saleInputPaid stateA = .ok (s1, 1) ∧
      s1.customers.rows = [{ id := 1, name := "A", phone := "", email := "", address := "", opening_balance := 5, balance := 0, notes := "" }] := by
    refine ⟨_, recordSale_ok saleInputPaid stateA (by decide), ?_⟩
    simp [applySaleItems, applySaleItem, applySaleCustomer, updateCustomerBalance,
          stateA, createCustomer, cInputA, initState, Table.insertAuto, customerLogBalance,
          transactionsSum, saleInputPaid, saleHeaderRow]
  have hres := h stateA hr _ hmem saleInputPaid s1 1 rfl rfl hok
  have hbad := hres
    { id := 1, name := "A", phone := "", email := "", address := "", opening_balance := 5, balance := 0, notes := "" }
    (by rw [hrows]; exact List.mem_singleton_self _) rfl
  simp at hbad

/-- C6 amended: a paid RecordSale referencing customer `cid` appends a
`sale` row and an equal `payment` row, so the log-derived balance is
unchanged, and it sets the stored balance to exactly that log-derived
value; hence the stored balance is unchanged precisely when it was
already in sync with the log (e.g. zero opening balance, or any earlier
recompute), while a stale stored balance is overwritten. -/
theorem C6_amended_paidSale (s : DBState) (inp : SaleInput) (cid : Nat) (s' : DBState) (i : Nat)
    (hcid : inp.customer_id = some cid) (hpaid : inp.payment_status = "paid")
    (hok : recordSale inp s = .ok (s', i)) :
    customerLogBalance cid s'.transactions.rows = customerLogBalance cid s.transactions.rows ∧
    (∀ c ∈ s'.customers.rows, c.id = cid →
      c.balance = customerLogBalance cid s.transactions.rows) ∧
    (∀ c ∈ s.customers.rows, c.id = cid → c.balance = customerLogBalance cid s.transactions.rows →
      ∀ c' ∈ s'.customers.rows, c'.id = cid → c'.balance = c.balance) := by
  have hps : paymentStatusOk inp.payment_status = true := by simp [paymentStatusOk, hpaid]
  rw [recordSale_ok inp s hps, hcid] at hok
  simp only [Except.ok.injEq, Prod.mk.injEq] at hok
  obtain ⟨rfl, -⟩ := hok
  obtain ⟨-, -, -, -, -, hC, -, hT, -, -, -, -, -, -⟩ :=
    applySaleItems_frame (s.sales.seq + 1) inp.items
      (applySaleCustomer (s.sales.seq + 1) cid inp.total_amount inp.payment_status
        { s with sales := { rows := s.sales.rows ++ [saleHeaderRow inp s],
                            seq := s.sales.seq + 1 } })
  refine ⟨?_, ?_, ?_⟩
  · rw [hT, applySaleCustomer_transactions]
    simp only [customerLogBalance, transactionsSum_append, saleTxRows, hpaid,
      transactionsSum, if_pos rfl]
    simp
  · intro c hc hid
    rw [hC, applySaleCustomer_customers] at hc
    rw [balance_in_map_customers cid _ _ c hc hid]
    simp only [customerLogBalance, transactionsSum_append, saleTxRows, hpaid,
      transactionsSum, if_pos rfl]
    simp
  · intro c hc hid hsync c' hc' hid'
    rw [hsync]
    rw [hC, applySaleCustomer_customers] at hc'
    rw [balance_in_map_customers cid _ _ c' hc' hid']
    simp only [customerLogBalance, transactionsSum_append, saleTxRows, hpaid,
      transactionsSum, if_pos rfl]
    simp

theorem C6_amended_paidSale_witness :
    ∃ s' i, recordSale saleInputPaid stateA = .ok (s', i) ∧
      customerLogBalance 1 s'.transactions.rows = customerLogBalance 1 stateA.transactions.rows := by
  have hok := recordSale_ok saleInputPaid stateA (by decide)
  obtain ⟨h1, -, -⟩ := C6_amended_paidSale stateA saleInputPaid 1 _ _ rfl rfl hok
  exact ⟨_, _, hok, h1⟩

theorem recordSale_sale_items_rows (inp : SaleInput) (s s' : DBState) (i : Nat)
    (hok : recordSale inp s = .ok (s', i)) :
    s'.sale_items.rows =
      s.sale_items.rows ++ mkSaleItems (s.sales.seq + 1) s.sale_items.seq inp.items := by
  by_cases hps : paymentStatusOk inp.payment_status = true
  · rw [recordSale_ok inp s hps] at hok
    cases hcid : inp.customer_id with
    | none =>
        rw [hcid] at hok
        simp only [Except.ok.injEq, Prod.mk.injEq] at hok
        obtain ⟨rfl, -⟩ := hok
        rw [applySaleItems_sale_items]
    | some cid =>
        rw [hcid] at hok
        simp only [Except.ok.injEq, Prod.mk.injEq] at hok
        obtain ⟨rfl, -⟩ := hok
        obtain ⟨-, -, -, -, -, -, -, hSI2, -, -, -, -, -, -⟩ :=
          applySaleCustomer_frame (s.sales.seq + 1) cid inp.total_amount inp.payment_status
            { s with sales := { rows := s.sales.rows ++ [saleHeaderRow inp s],
                                seq := s.sales.seq + 1 } }
        rw [applySaleItems_sale_items, hSI2]
  · simp [recordSale, hps] at hok

theorem mkSaleItems_subtotals (saleId seq : Nat) (l : List SaleItemInput)
    (h : ∀ it ∈ l, it.subtotal = (it.quantity : Rat) * it.unit_price) :
    ∀ r ∈ mkSaleItems saleId seq l, r.subtotal = (r.quantity : Rat) * r.unit_price := by
  induction l generalizing seq with
  | nil => intro r hr; simp [mkSaleItems] at hr
  | cons it rest ih =>
      intro r hr
      simp only [mkSaleItems, List.mem_cons] at hr
      rcases hr with rfl | hr
      · exact h it (by simp)
      · exact ih (seq + 1) (fun x hx => h x (List.mem_cons_of_mem it hx)) r hr

/-- C8, counterexample: the handler binds `item.subtotal` straight from the
request, so a sale whose item carries quantity 2, unit price 10 and
subtotal 999 stores a `sale_items` row with subtotal 999 ≠ 2 × 10. -/
theorem C8_counterexample : ¬ ClaimC8 := by
  intro h
  have hok := recordSale_ok saleInputBadSubtotal initState (by decide)
  have hold : saleItemsOk initState.sale_items.rows := by
    intro r hr
    simp [initState] at hr
  have hsub := h initState saleInputBadSubtotal _ _ hok hold
  have hmem : ({ id := 1, sale_id := 1, product_id := 1, quantity := 2, unit_price := 10, subtotal := 999 } : SaleItemRow)
      ∈ (applySaleItems (initState.sales.seq + 1) saleInputBadSubtotal.items
          { initState with sales := { rows := initState.sales.rows ++ [saleHeaderRow saleInputBadSubtotal initState],
                                      seq := initState.sales.seq + 1 } }).sale_items.rows := by
    simp [applySaleItems, applySaleItem, initState, Table.insertAuto, saleInputBadSubtotal,
          saleHeaderRow]
  have hbad := hsub _ hmem
  simp [saleItemsOk] at hbad
  norm_num at hbad

/-- C8 amended: RecordSale stores each item's subtotal verbatim from the
request; the invariant "subtotal = quantity × unit price" is preserved
exactly when every input item satisfies it (as the bundled UI computes it),
and is violated by a request that sends any other subtotal. -/
theorem C8_amended_subtotal (s : DBState) (inp : SaleInput) (s' : DBState) (i : Nat)
    (hok : recordSale inp s = .ok (s', i))
    (hold : saleItemsOk s.sale_items.rows)
    (hinp : ∀ it ∈ inp.items, it.subtotal = (it.quantity : Rat) * it.unit_price) :
    saleItemsOk s'.sale_items.rows := by
  intro r hr
  rw [recordSale_sale_items_rows inp s s' i hok] at hr
  rcases List.mem_append.mp hr with hr | hr
  · exact hold r hr
  · exact mkSaleItems_subtotals (s.sales.seq + 1) s.sale_items.seq inp.items hinp r hr

theorem C8_amended_subtotal_witness :
    ∃ s' i, recordSale saleInputPaid initState = .ok (s', i) ∧ saleItemsOk s'.sale_items.rows := by
  have hok := recordSale_ok saleInputPaid initState (by decide)
  refine ⟨_, _, hok, C8_amended_subtotal initState saleInputPaid _ _ hok ?_ ?_⟩
  · intro r hr
    simp [initState] at hr
  · intro it hit
    simp only [saleInputPaid, List.mem_singleton] at hit
    subst hit
    norm_num

/-- C5, counterexample: `POST /api/stock-adjustments` never validates
`quantity`; a request with a valid kind and quantity −5 succeeds (no 400),
refuting the claim that non-positive quantities are rejected before any
write. -/
theorem C5_counterexample : ¬ ClaimC5 := by
  intro h
  obtain ⟨s', hok⟩ : ∃ s', recordStockAdjustment adjInputNeg initState = .ok s' := ⟨_, rfl⟩
  obtain ⟨-, hq⟩ := h adjInputNeg initState s' hok
  exact absurd hq (by decide)

/-- C5 amended: there is no pre-write validation.  A kind outside
{damaged, correction, lost} is rejected by the store's CHECK constraint
during the INSERT inside the transacted unit, which rolls back — the
store is unchanged and the handler answers 400.  The quantity is never
validated: any quantity, zero or negative included, is accepted; the
adjustment row is stored and the product's `stock_quantity` decreases by
that quantity (so it increases when the quantity is negative). -/
theorem C5_amended_stockAdjustment (inp : StockAdjustmentInput) (s : DBState) :
    (stockAdjustmentTypeOk inp.type = false →
      recordStockAdjustment inp s = .error "CHECK constraint failed: stock_adjustments.type") ∧
    (stockAdjustmentTypeOk inp.type = true →
      recordStockAdjustment inp s = .ok
        { s with
          stock_adjustments :=
            { rows := s.stock_adjustments.rows ++
                [{ id := s.stock_adjustments.seq + 1, product_id := inp.product_id,
                   type := inp.type, quantity := inp.quantity, reason := inp.reason,
                   created_at := s.now }],
              seq := s.stock_adjustments.seq + 1 },
          products := { s.products with rows := s.products.rows.map (fun p =>
            if p.id = inp.product_id then
              { p with stock_quantity := p.stock_quantity - inp.quantity } else p) } }) := by
  constructor
  · intro hty
    simp [recordStockAdjustment, hty]
  · intro hty
    simp [recordStockAdjustment, hty, Table.insertAuto]

theorem C5_amended_stockAdjustment_witness :
    stockAdjustmentTypeOk adjInputNeg.type = true ∧
    recordStockAdjustment adjInputNeg initState = .ok
      { initState with
        stock_adjustments :=
          { rows := initState.stock_adjustments.rows ++
              [{ id := initState.stock_adjustments.seq + 1, product_id := adjInputNeg.product_id,
                 type := adjInputNeg.type, quantity := adjInputNeg.quantity,
                 reason := adjInputNeg.reason, created_at := initState.now }],
            seq := initState.stock_adjustments.seq + 1 },
        products := { initState.products with rows := initState.products.rows.map (fun p =>
          if p.id = adjInputNeg.product_id then
            { p with stock_quantity := p.stock_quantity - adjInputNeg.quantity } else p) } } :=
  ⟨by decide, (C5_amended_stockAdjustment adjInputNeg initState).2 (by decide)⟩

/-- C3 at a concrete failing input: against `stateA` (customer 1, stored
balance 5, empty log), `POST /api/payments` with amount 10 whose second
statement (the balance-recompute UPDATE) fails reports failure — yet the
inserted `payment` row is left committed, because this handler has no
`db.transaction` wrapper and the INSERT autocommitted on its own.  The
supplier-payment handler behaves the same way.  The all-or-nothing
contract the claim states is therefore violated by the code. -/
theorem C3_payment_not_atomic_eval :
    (recordCustomerPayment 1 10 "cash" (some 1) stateA).2 = false ∧
    (recordCustomerPayment 1 10 "cash" (some 1) stateA).1.transactions.rows =
      [{ id := 1, customer_id := 1, type := "payment", amount := 10,
         description := "cash", created_at := 0 }] ∧
    (recordCustomerPayment 1 10 "cash" (some 1) stateA).1 ≠ stateA ∧
    (recordSupplierPayment 1 10 none (some 1) initState).2 = false ∧
    (recordSupplierPayment 1 10 none (some 1) initState).1 ≠ initState := by
  refine ⟨by decide, by decide, by decide, by decide, by decide⟩

theorem replaceTable_rows_of_isSome {α : Type} (getId : α → Nat) (ob : Option (List α))
    (t : Table α) (h : ob.isSome = true) :
    (replaceTable getId ob t).rows = ob.getD [] := by
  cases ob with
  | none => simp at h
  | some l => simp [replaceTable]

/-- C2: importing a full snapshot (every table key present — the spec's
glossary defines a snapshot as "a full export of all Ledger Store tables")
whose rows satisfy the table CHECKs and whose row sets satisfy the
UNIQUE/PRIMARY KEY constraints replaces, for each known table, all
existing rows with exactly the snapshot's rows for that table; a table
whose snapshot array is empty therefore ends empty.  The whole restore is
one `db.transaction` unit: a failing statement mid-restore — an injected
infrastructure fault, a CHECK violation, or a duplicate unique key, which
surface through the same error path — yields an error result and, by
rollback, the caller's store is left exactly as it was. -/
theorem C2_importBackup_spec (b : Snapshot) (s : DBState)
    (hfull : Snapshot.full b = true) (hvalid : Snapshot.valid b = true)
    (huniq : Snapshot.uniqueOk b = true) :
    (∃ s', importBackup b none s = .ok s' ∧
      s'.users.rows = b.users.getD [] ∧
      s'.settings.rows = b.settings.getD [] ∧
      s'.products.rows = b.products.getD [] ∧
      s'.warehouses.rows = b.warehouses.getD [] ∧
      s'.suppliers.rows = b.suppliers.getD [] ∧
      s'.supplier_transactions.rows = b.supplier_transactions.getD [] ∧
      s'.customers.rows = b.customers.getD [] ∧
      s'.sales.rows = b.sales.getD [] ∧
      s'.sale_items.rows = b.sale_items.getD [] ∧
      s'.transactions.rows = b.transactions.getD [] ∧
      s'.maintenance.rows = b.maintenance.getD [] ∧
      s'.purchases.rows = b.purchases.getD [] ∧
      s'.purchase_items.rows = b.purchase_items.getD [] ∧
      s'.general_ledger.rows = b.general_ledger.getD [] ∧
      s'.stock_adjustments.rows = b.stock_adjustments.getD [] ∧
      s'.now = s.now) ∧
    (∀ e, importBackup b (some e) s = .error e) := by
  simp only [Snapshot.full, Bool.and_eq_true] at hfull
  obtain ⟨⟨⟨⟨⟨⟨⟨⟨⟨⟨⟨⟨⟨⟨h1, h2⟩, h3⟩, h4⟩, h5⟩, h6⟩, h7⟩, h8⟩, h9⟩, h10⟩, h11⟩, h12⟩, h13⟩, h14⟩, h15⟩ := hfull
  constructor
  · refine ⟨importBackupApply b s, by simp [importBackup, hvalid, huniq], ?_, ?_, ?_, ?_, ?_, ?_, ?_,
      ?_, ?_, ?_, ?_, ?_, ?_, ?_, ?_, rfl⟩
    · exact replaceTable_rows_of_isSome _ b.users s.users h1
    · exact replaceTable_rows_of_isSome _ b.settings s.settings h2
    · exact replaceTable_rows_of_isSome _ b.products s.products h3
    · exact replaceTable_rows_of_isSome _ b.warehouses s.warehouses h4
    · exact replaceTable_rows_of_isSome _ b.suppliers s.suppliers h5
    · exact replaceTable_rows_of_isSome _ b.supplier_transactions s.supplier_transactions h6
    · exact replaceTable_rows_of_isSome _ b.customers s.customers h7
    · exact replaceTable_rows_of_isSome _ b.sales s.sales h8
    · exact replaceTable_rows_of_isSome _ b.sale_items s.sale_items h9
    · exact replaceTable_rows_of_isSome _ b.transactions s.transactions h10
    · exact replaceTable_rows_of_isSome _ b.maintenance s.maintenance h11
    · exact replaceTable_rows_of_isSome _ b.purchases s.purchases h12
    · exact replaceTable_rows_of_isSome _ b.purchase_items s.purchase_items h13
    · exact replaceTable_rows_of_isSome _ b.general_ledger s.general_ledger h14
    · exact replaceTable_rows_of_isSome _ b.stock_adjustments s.stock_adjustments h15
  · intro e
    rfl

theorem C2_importBackup_spec_witness :
    Snapshot.full snapshotB0 = true ∧ Snapshot.valid snapshotB0 = true ∧
    Snapshot.uniqueOk snapshotB0 = true ∧
    ∃ s', importBackup snapshotB0 none stateA = .ok s' ∧
      s'.customers.rows = [] ∧ s'.products.rows = snapshotB0.products.getD [] := by
  refine ⟨by decide, by decide, by decide, ?_⟩
  obtain ⟨⟨s', hok, -, -, hp, -, -, -, hc, -⟩, -⟩ :=
    C2_importBackup_spec snapshotB0 stateA (by decide) (by decide) (by decide)
  refine ⟨s', hok, ?_, hp⟩
  rw [hc]
  decide

/-- C9: exporting the whole store and importing that exact snapshot
succeeds and reproduces the store row for row in every table — the
snapshot preserves the autogenerated identifiers and the import
re-inserts them verbatim, in order.  The two hypotheses say the store is
one SQLite could actually have produced: every stored row passed its
table CHECK at insertion time (`validEnums`) and every UNIQUE/PRIMARY KEY
column is duplicate-free (`uniqueOk`), both guaranteed by the constraints
guarding every insert. -/
theorem C9_export_import_roundtrip (s : DBState) (h : DBState.validEnums s = true)
    (hu : DBState.uniqueOk s = true) :
    ∃ s', importBackup (exportBackup s) none s = .ok s' ∧
      s'.users.rows = s.users.rows ∧
      s'.settings.rows = s.settings.rows ∧
      s'.products.rows = s.products.rows ∧
      s'.warehouses.rows = s.warehouses.rows ∧
      s'.suppliers.rows = s.suppliers.rows ∧
      s'.supplier_transactions.rows = s.supplier_transactions.rows ∧
      s'.customers.rows = s.customers.rows ∧
      s'.sales.rows = s.sales.rows ∧
      s'.sale_items.rows = s.sale_items.rows ∧
      s'.transactions.rows = s.transactions.rows ∧
      s'.maintenance.rows = s.maintenance.rows ∧
      s'.purchases.rows = s.purchases.rows ∧
      s'.purchase_items.rows = s.purchase_items.rows ∧
      s'.general_ledger.rows = s.general_ledger.rows ∧
      s'.stock_adjustments.rows = s.stock_adjustments.rows ∧
      s'.now = s.now := by
  have hv : Snapshot.valid (exportBackup s) = true := h
  have hvu : Snapshot.uniqueOk (exportBackup s) = true := hu
  exact ⟨importBackupApply (exportBackup s) s, by simp [importBackup, hv, hvu], rfl, rfl, rfl, rfl,
    rfl, rfl, rfl, rfl, rfl, rfl, rfl, rfl, rfl, rfl, rfl, rfl⟩

theorem C9_export_import_roundtrip_witness :
    DBState.validEnums stateA = true ∧ DBState.uniqueOk stateA = true ∧
    ∃ s', importBackup (exportBackup stateA) none stateA = .ok s' ∧
      s'.customers.rows = stateA.customers.rows ∧ s'.users.rows = stateA.users.rows := by
  refine ⟨by decide, by decide, ?_⟩
  obtain ⟨s', hok, hu, -, -, -, -, -, hc, -⟩ :=
    C9_export_import_roundtrip stateA (by decide) (by decide)
  exact ⟨s', hok, hc, hu⟩
